import Mathlib

/-!
Verification of the Xenon WebDriver proxy (stevepryde/xenon) against its
natural-language specification.

This file contains a shallow embedding, in Lean 4, of the parts of the Rust
source that the checked claims are about:

* src/config.rs      - port-range parsing (parse_port_list)
* src/portmanager.rs - the port pool (PortManager)
* src/browser.rs     - capability matching (BrowserConfig::matches_capabilities)
* src/service.rs     - WebDriverService / ServiceGroup (get_or_start_service,
                       delete_session, terminate)
* src/session.rs     - the readiness probe and the create-session handshake
                       (Session::create), including the session-id rewriting
* src/server.rs      - the create-session dispatch (handle_session) and the
                       remote-node fallback (handle_create_session_node)
* src/nodes.rs       - RemoteNode (new, update) and url parsing

External effects (HTTP round trips, child-process spawning, serde JSON
parsing, the hyper Uri grammar, fresh UUIDs) are made explicit parameters of
the embedded functions: each such function receives the outcome of the
external call as an argument, and the embedding covers everything the Rust
code does with that outcome.  Rust HashMap / HashSet containers are embedded
as association lists / duplicate-free lists; iteration order of a HashMap is
unspecified in Rust, and the embedding fixes one order.  Machine integers
(u16 ports, u32 session limits, u128 comms ids) are embedded as Nat; none of
the embedded code paths can overflow them (port parsing checks the u16 bound
explicitly, and the counters only ever grow by small increments from small
configured values).  Rust str::to_lowercase is embedded as ASCII lowercasing,
which agrees with it on all ASCII strings (browser names, platform names).
-/

namespace Xenon

/-! ### Basic string helpers

Lean kernel reduction of the built-in String functions is limited, so the
string operations used by the source (to_lowercase, is_empty, splitn,
u16::from_str) are embedded as executable functions over the character list
of the string. -/

/-- ASCII lowercasing of one character, the embedding of what Rust
to_lowercase does on ASCII data. -/
def lowerChar (c : Char) : Char :=
  if 65 ≤ c.toNat ∧ c.toNat ≤ 90 then Char.ofNat (c.toNat + 32) else c

/-- Embedding of str::to_lowercase (ASCII fragment). -/
def lowerStr (s : String) : String :=
  String.mk (s.data.map lowerChar)

/-- Split a character list at the first occurrence of a separator; the
second component is none when the separator does not occur.  This is the
core of str::splitn(2, sep). -/
def splitFirstOn (sep : Char) : List Char → List Char × Option (List Char)
  | [] => ([], none)
  | x :: xs =>
      if x = sep then ([], some xs)
      else
        let r := splitFirstOn sep xs
        (x :: r.1, r.2)

/-- Embedding of str::splitn(2, given separator) collected into a Vec, as
used by parse_port_list in src/config.rs: the result has one element when
the separator is absent and exactly two otherwise. -/
def splitn2 (sep : Char) (s : String) : List String :=
  match splitFirstOn sep s.data with
  | (a, none) => [String.mk a]
  | (a, some b) => [String.mk a, String.mk b]

/-- Decimal value of a digit character, none for a non-digit. -/
def digitVal (c : Char) : Option Nat :=
  if 48 ≤ c.toNat ∧ c.toNat ≤ 57 then some (c.toNat - 48) else none

/-- Accumulating decimal parser over a character list: returns none on any
non-digit and on empty input (the accumulator starts as none). -/
def parseDigits : List Char → Option Nat → Option Nat
  | [], acc => acc
  | c :: cs, acc =>
      match digitVal c, acc with
      | some d, some n => parseDigits cs (some (n * 10 + d))
      | some d, none => parseDigits cs (some d)
      | none, _ => none

/-- Embedding of str::parse::\<u16\> (u16::from_str): an optional leading
plus sign, then a non-empty run of decimal digits, rejected when the value
exceeds 65535 (u16 overflow) or when any other character occurs. -/
def parseU16 (s : String) : Option Nat :=
  let cs := match s.data with
    | '+' :: rest => rest
    | l => l
  match parseDigits cs none with
  | some n => if n ≤ 65535 then some n else none
  | none => none

/-! ### src/portmanager.rs -/

/-- A ServicePort is a u16 port number. -/
abbrev ServicePort := Nat

/-- Embedding of enum PortStatus in src/portmanager.rs. -/
inductive PortStatus
  | Available
  | Taken
deriving DecidableEq, Repr

/-- Association-list get, the embedding of HashMap::get. -/
def assocGet {α : Type} : List (Nat × α) → Nat → Option α
  | [], _ => none
  | (k, v) :: rest, key => if k = key then some v else assocGet rest key

/-- Association-list in-place update of an existing key, the embedding of a
mutation through HashMap::get_mut; a missing key leaves the list unchanged. -/
def assocSet {α : Type} : List (Nat × α) → Nat → α → List (Nat × α)
  | [], _, _ => []
  | (k, v) :: rest, key, v2 => if k = key then (k, v2) :: rest else (k, v) :: assocSet rest key v2

/-- Association-list removal returning the removed value, the embedding of
HashMap::remove. -/
def assocTake {α : Type} : List (Nat × α) → Nat → Option α × List (Nat × α)
  | [], _ => (none, [])
  | (k, v) :: rest, key =>
      if k = key then (some v, rest)
      else
        let r := assocTake rest key
        (r.1, (k, v) :: r.2)

/-- Embedding of struct PortManager in src/portmanager.rs; the HashMap of
ports is an association list. -/
structure PortManager where
  ports : List (ServicePort × PortStatus)
deriving Repr

/-- Helper for lock_next_port: walk the pool, mark the first Available port
Taken and return it. -/
def lockFirstAvailable : List (ServicePort × PortStatus) →
    Option ServicePort × List (ServicePort × PortStatus)
  | [] => (none, [])
  | (k, PortStatus.Available) :: rest => (some k, (k, PortStatus.Taken) :: rest)
  | (k, st) :: rest =>
      let r := lockFirstAvailable rest
      (r.1, (k, st) :: r.2)

/-- Embedding of PortManager::lock_next_port (src/portmanager.rs lines
28-37): return some currently Available port marked Taken, or none. -/
def PortManager.lock_next_port (pm : PortManager) : Option ServicePort × PortManager :=
  let r := lockFirstAvailable pm.ports
  (r.1, ⟨r.2⟩)

/-- Embedding of PortManager::unlock_port (src/portmanager.rs lines 39-43):
mark the port Available when it is in the pool, otherwise do nothing. -/
def PortManager.unlock_port (pm : PortManager) (port : ServicePort) : PortManager :=
  ⟨pm.ports.map (fun kv => if kv.1 = port then (kv.1, PortStatus.Available) else kv)⟩

/-! ### src/config.rs : parse_port_list -/

/-- Ports contributed by a well-formed range, start..=end inclusive. -/
def rangePorts (s e : Nat) : List Nat :=
  List.range' s (e + 1 - s)

/-- Ports contributed by one port-range specifier string, following the loop
body of parse_port_list (src/config.rs lines 63-111): an entry without a
dash contributes its parsed value (no bound check in the source); an entry
with a dash parses both endpoints, is skipped when either endpoint fails to
parse, when either endpoint is at most 1024, or when the range is reversed,
and otherwise contributes every port of the inclusive range.  Malformed
entries contribute nothing (the source only logs them). -/
def portEntryPorts (entry : String) : List Nat :=
  match splitn2 '-' entry with
  | [p] =>
      match parseU16 p with
      | some x => [x]
      | none => []
  | [a, b] =>
      match parseU16 a, parseU16 b with
      | some s, some e =>
          if s ≤ 1024 ∨ e ≤ 1024 then []
          else if e < s then []
          else rangePorts s e
      | _, _ => []
  | _ => []

/-- Embedding of parse_port_list (src/config.rs lines 60-115): concatenate
the contributions of the entries in order. -/
def parse_port_list : List String → List Nat
  | [] => []
  | entry :: rest => portEntryPorts entry ++ parse_port_list rest

/-- Specification-side admission predicate used by the amended claim C7:
port p is admitted by an entry when the entry is a single specifier parsing
to p, or a dash-separated range whose endpoints parse, both exceed 1024, and
enclose p. -/
def admitsPort (entry : String) (p : Nat) : Prop :=
  (∃ q, splitn2 '-' entry = [q] ∧ parseU16 q = some p) ∨
  (∃ a b s e, splitn2 '-' entry = [a, b] ∧ parseU16 a = some s ∧ parseU16 b = some e ∧
      1024 < s ∧ 1024 < e ∧ s ≤ p ∧ p ≤ e)

/-! ### src/browser.rs -/

/-- Embedding of struct BrowserConfig (src/browser.rs lines 13-26).  The
driver path and arguments are kept as plain strings; sessions_per_driver and
max_sessions are the configured u32 limits. -/
structure BrowserConfig where
  name : String
  version : Option String
  os : Option String
  driver_path : Option String
  args : Option (List String)
  sessions_per_driver : Nat
  max_sessions : Nat
deriving DecidableEq, Repr

/-- Embedding of struct BrowserMatch (src/browser.rs lines 124-130). -/
structure BrowserMatch where
  browser_name : String
  browser_version : Option String
  platform_name : Option String
deriving DecidableEq, Repr

/-- Embedding of struct Capabilities (src/browser.rs lines 132-136). -/
structure Capabilities where
  always_match : BrowserMatch
deriving DecidableEq, Repr

/-- Accessor Capabilities::browser_name. -/
def Capabilities.browser_name (c : Capabilities) : String :=
  c.always_match.browser_name

/-- Accessor Capabilities::browser_version. -/
def Capabilities.browser_version (c : Capabilities) : Option String :=
  c.always_match.browser_version

/-- Accessor Capabilities::platform_name. -/
def Capabilities.platform_name (c : Capabilities) : Option String :=
  c.always_match.platform_name

/-- The browser-name check of matches_capabilities (src/browser.rs lines
64-66): names must agree case-insensitively. -/
def nameMatches (b : BrowserConfig) (caps : Capabilities) : Bool :=
  lowerStr b.name == lowerStr caps.browser_name

/-- The browser-version check of matches_capabilities (src/browser.rs lines
68-79): a requested non-empty version requires the configured version to be
present and exactly equal. -/
def versionMatches (b : BrowserConfig) (caps : Capabilities) : Bool :=
  match caps.browser_version with
  | none => true
  | some required_version =>
      if required_version.isEmpty then true
      else
        match b.version with
        | some v => v == required_version
        | none => false

/-- The platform check of matches_capabilities (src/browser.rs lines 81-93):
a requested platform other than any (case-insensitively) requires the
configured os to be present and equal case-insensitively. -/
def platformMatches (b : BrowserConfig) (caps : Capabilities) : Bool :=
  match caps.platform_name with
  | none => true
  | some required_os =>
      if lowerStr required_os == "any" then true
      else
        match b.os with
        | some os => lowerStr os == lowerStr required_os
        | none => false

/-- Embedding of BrowserConfig::matches_capabilities (src/browser.rs lines
63-96): the three early-return checks in sequence. -/
def BrowserConfig.matches_capabilities (b : BrowserConfig) (caps : Capabilities) : Bool :=
  nameMatches b caps && versionMatches b caps && platformMatches b caps

/-! ### Error and response types (src/error.rs, src/response.rs)

The two node-management message constructors ErrorRegisteringNode and
ErrorUpdatingNode are referenced by src/nodes.rs although the snapshot of
src/response.rs predates them; they are included so nodes.rs can be
embedded as written. -/

/-- Embedding of enum XenonResponse (src/response.rs lines 6-15). -/
inductive XenonResponse
  | EndpointNotFound (p : String)
  | MethodNotFound (p : String)
  | SessionNotFound (s : String)
  | ErrorCreatingSession (m : String)
  | NoMatchingBrowser
  | NoSessionsAvailable
  | InternalServerError (m : String)
  | ErrorCreatingNode (m : String)
  | ErrorRegisteringNode (m : String)
  | ErrorUpdatingNode (m : String)
deriving DecidableEq, Repr

/-- Embedding of enum XenonError (src/error.rs lines 8-29).  A passed-
through backend response is tracked by its status code; the config-loading
constructors are irrelevant to the claims and omitted. -/
inductive XenonError
  | InvalidPort
  | ServerError (m : String)
  | RequestError (m : String)
  | RespondWith (r : XenonResponse)
  | ResponsePassThrough (status : Nat)
  | IOError (m : String)
  | NoSessionsAvailable
deriving DecidableEq, Repr

/-! ### src/service.rs -/

/-- Embedding of struct WebDriverService (src/service.rs lines 14-18).  The
child-process handle is an external resource and is not part of the state
the claims are about; the session set (a HashSet) is a duplicate-free list. -/
structure WebDriverService where
  port : ServicePort
  sessions : List String
deriving DecidableEq, Repr

/-- Embedding of WebDriverService::num_active_sessions. -/
def WebDriverService.num_active_sessions (s : WebDriverService) : Nat :=
  s.sessions.length

/-- Embedding of WebDriverService::add_session (HashSet::insert). -/
def WebDriverService.add_session (s : WebDriverService) (session_id : String) : WebDriverService :=
  if session_id ∈ s.sessions then s else { s with sessions := s.sessions ++ [session_id] }

/-- Embedding of WebDriverService::delete_session (HashSet::remove). -/
def WebDriverService.delete_session (s : WebDriverService) (session_id : String) : WebDriverService :=
  { s with sessions := s.sessions.filter (fun x => x ≠ session_id) }

/-- Precondition asserted at the top of WebDriverService::terminate
(src/service.rs line 47): the session set must be empty.  The rest of
terminate kills the external child process and only logs kill failures. -/
def WebDriverService.terminateAssert (s : WebDriverService) : Prop :=
  s.sessions = []

/-- Embedding of struct ServiceGroup (src/service.rs lines 87-90); the
HashMap of services is an association list keyed by port. -/
structure ServiceGroup where
  browser : BrowserConfig
  services : List (ServicePort × WebDriverService)
deriving DecidableEq, Repr

/-- Embedding of ServiceGroup::total_sessions (src/service.rs lines 108-114). -/
def ServiceGroup.total_sessions (g : ServiceGroup) : Nat :=
  g.services.foldl (fun count kv => count + kv.2.num_active_sessions) 0

/-- Embedding of ServiceGroup::has_capacity (src/service.rs lines 116-119). -/
def ServiceGroup.has_capacity (g : ServiceGroup) : Bool :=
  g.total_sessions < g.browser.max_sessions

/-- The service-scanning loop of get_or_start_service (src/service.rs lines
127-140): walk the services accumulating the overall session count and the
least-loaded service below the per-service limit; none signals the early
return with the bare NoSessionsAvailable error when the accumulated count
reaches max_sessions. -/
def scanServices (max_sessions : Nat) :
    List (ServicePort × WebDriverService) → Nat → Nat → Option ServicePort →
    Option (Option ServicePort)
  | [], _, _, next_port => some next_port
  | (k, v) :: rest, overall, best, next_port =>
      let n := v.num_active_sessions
      let overall2 := overall + n
      if max_sessions ≤ overall2 then none
      else if n < best then scanServices max_sessions rest overall2 n (some k)
      else scanServices max_sessions rest overall2 best next_port

/-- Embedding of ServiceGroup::get_or_start_service (src/service.rs lines
121-169).  The child-process spawn is external: spawnErr gives the error
message of WebDriverService::spawn for a port, or none when the spawn
succeeds, in which case the new service starts with an empty session set
(src/service.rs lines 38-43).  Returns the outcome (chosen port and updated
group) and the resulting port-manager state. -/
def ServiceGroup.get_or_start_service (g : ServiceGroup) (pm : PortManager)
    (spawnErr : ServicePort → Option String) :
    Except XenonError (ServicePort × ServiceGroup) × PortManager :=
  let max_per_service := g.browser.sessions_per_driver
  let max_sessions := g.browser.max_sessions
  match scanServices max_sessions g.services 0 max_per_service none with
  | none => (.error .NoSessionsAvailable, pm)
  | some (some p) => (.ok (p, g), pm)
  | some none =>
      match pm.lock_next_port with
      | (none, pm2) => (.error (.RespondWith .NoSessionsAvailable), pm2)
      | (some newport, pm2) =>
          match spawnErr newport with
          | some msg => (.error (.IOError msg), pm2)
          | none =>
              let service : WebDriverService := { port := newport, sessions := [] }
              (.ok (newport, { g with services := g.services ++ [(newport, service)] }), pm2)

/-- Embedding of ServiceGroup::delete_session (src/service.rs lines
171-193): remove the session id from the service on the given port; when the
session set becomes empty, remove the service, terminate it and unlock the
port.  The third component records the services passed to
WebDriverService::terminate, so the termination events are visible to the
theorems. -/
def ServiceGroup.delete_session (g : ServiceGroup) (port : ServicePort)
    (xsession_id : String) (pm : PortManager) :
    ServiceGroup × PortManager × List WebDriverService :=
  match assocGet g.services port with
  | none => (g, pm, [])
  | some service =>
      let service := service.delete_session xsession_id
      let services := assocSet g.services port service
      let should_terminate := service.sessions.isEmpty
      if should_terminate then
        match assocTake services port with
        | (some removed, services2) =>
            ({ g with services := services2 }, pm.unlock_port port, [removed])
        | (none, services2) => ({ g with services := services2 }, pm, [])
      else ({ g with services := services }, pm, [])

/-! ### src/session.rs : Session::create -/

/-- Embedding of struct ConnectionData (src/session.rs lines 42-48): the
sessionId field plus the untouched capabilities payload, kept opaque. -/
structure ConnectionData where
  session_id : String
  capabilities : String
deriving DecidableEq, Repr

/-- Embedding of struct ConnectionResp (src/session.rs lines 50-55). -/
structure ConnectionResp where
  session_id : String
  value : ConnectionData
deriving DecidableEq, Repr

/-- The response handed back to the client by Session::create: status code,
Content-Type header and the re-serialized ConnectionResp body. -/
structure HttpResponse where
  status : Nat
  content_type : Option String
  body : ConnectionResp
deriving DecidableEq, Repr

/-- Embedding of hyper StatusCode::is_success: 2xx. -/
def statusIsSuccess (status : Nat) : Bool :=
  decide (200 ≤ status ∧ status < 300)

/-- Embedding of the readiness-probe loop of Session::create
(src/session.rs lines 98-127).  The argument ok tells whether the i-th
GET /status attempt (0-indexed) reaches the driver with a 2xx; count is the
Rust loop counter.  The result carries the total number of /status requests
issued: ok on break, error on the timeout return.  The 1-second sleeps are
external. -/
def statusProbeGo (ok : Nat → Bool) (count : Nat) : Except Nat Nat :=
  if ok count then .ok (count + 1)
  else if 30 < count + 1 then .error (count + 1)
  else statusProbeGo ok (count + 1)
termination_by 31 - count
decreasing_by simp_wf; omega

/-- The readiness probe started with count = 0, as in Session::create. -/
def statusProbe (ok : Nat → Bool) : Except Nat Nat :=
  statusProbeGo ok 0

/-- Embedding of the handshake-response processing of Session::create
(src/session.rs lines 145-198).  Arguments: the backend status code of the
POST /session round trip and the serde parse result of its body (network
and serde being external), plus the Xenon-minted session id.  On a non-2xx
status the backend response is passed through; on an unparseable body a
Xenon ErrorCreatingSession is produced; otherwise the backend session id is
extracted (top-level sessionId when non-empty, else value.sessionId), both
ids in the body are replaced by the Xenon id, and the response is rebuilt
with the upstream status and an application/json Content-Type.  Returns the
stored backend session id together with the client response. -/
def Session.processHandshake (status : Nat) (parsed : Option ConnectionResp)
    (xsession_id : String) : Except XenonError (String × HttpResponse) :=
  if ¬ statusIsSuccess status then .error (.ResponsePassThrough status)
  else
    match parsed with
    | none => .error (.RespondWith (.ErrorCreatingSession "invalid new-session response body"))
    | some resp =>
        let session_id := if resp.session_id.isEmpty then resp.value.session_id else resp.session_id
        let resp2 : ConnectionResp :=
          { session_id := xsession_id
            value := { resp.value with session_id := xsession_id } }
        .ok (session_id,
             { status := status, content_type := some "application/json", body := resp2 })

/-- Projection: the backend session id stored by a successful handshake. -/
def backendIdOf (r : Except XenonError (String × HttpResponse)) : Option String :=
  match r with
  | .ok (sid, _) => some sid
  | .error _ => none

/-! ### src/nodes.rs -/

/-- Scheme and authority components of a parsed hyper Uri; the Uri grammar
itself is external to the embedding. -/
structure UriParts where
  scheme : Option String
  authority : Option String
deriving DecidableEq, Repr

/-- Embedding of parse_url (src/nodes.rs lines 45-54): uri_parse is the
external hyper Uri parser; a missing scheme defaults to http and a missing
authority to localhost:8888. -/
def parse_url (uri_parse : String → Option UriParts) (url : String) :
    Option (String × String) :=
  match uri_parse url with
  | some uri => some (uri.scheme.getD "http", uri.authority.getD "localhost:8888")
  | none => none

/-- Embedding of struct RemoteServiceGroup (src/nodes.rs lines 31-35). -/
structure RemoteServiceGroup where
  browser : BrowserConfig
  remaining_sessions : Nat
deriving DecidableEq, Repr

/-- Embedding of struct RemoteNodeCreate (src/nodes.rs lines 37-43). -/
structure RemoteNodeCreate where
  name : String
  url : String
  service_groups : List RemoteServiceGroup
deriving DecidableEq, Repr

/-- Embedding of struct RemoteNode (src/nodes.rs lines 64-75); the NodeId
is its UUID string. -/
structure RemoteNode where
  id : String
  name : String
  url : String
  comms_id : Nat
  service_groups : List RemoteServiceGroup
  scheme : String
  authority : String
deriving DecidableEq, Repr

/-- Embedding of RemoteNode::new (src/nodes.rs lines 78-95); fresh_id is
the externally generated UUID of NodeId::new. -/
def RemoteNode.new (uri_parse : String → Option UriParts) (fresh_id : String)
    (node_info : RemoteNodeCreate) : Except XenonError RemoteNode :=
  match parse_url uri_parse node_info.url with
  | none =>
      .error (.RespondWith (.ErrorRegisteringNode
        ("Error parsing url for remote node: " ++ node_info.url)))
  | some (scheme, authority) =>
      .ok { id := fresh_id
            name := node_info.name
            url := node_info.url
            comms_id := 0
            service_groups := node_info.service_groups
            scheme := scheme
            authority := authority }

/-- Embedding of RemoteNode::display_name (src/nodes.rs lines 101-107). -/
def RemoteNode.display_name (n : RemoteNode) : String :=
  if n.name.isEmpty then n.id else n.name ++ " (" ++ n.id ++ ")"

/-- Embedding of RemoteNode::update (src/nodes.rs lines 109-127): the
incoming update is applied only when its comms_id exceeds the stored one, in
which case name, service_groups, comms_id and the scheme and authority
re-derived from the incoming url are overwritten (the stored url field
itself is not touched by the source); otherwise the node is unchanged.  The
Bool reports whether the update was applied. -/
def RemoteNode.update (uri_parse : String → Option UriParts)
    (stored node : RemoteNode) : Except XenonError (RemoteNode × Bool) :=
  if stored.comms_id < node.comms_id then
    match parse_url uri_parse node.url with
    | none =>
        .error (.RespondWith (.ErrorUpdatingNode
          ("Error parsing url for remote node: " ++ node.url)))
    | some (scheme, authority) =>
        .ok ({ stored with
                scheme := scheme
                authority := authority
                name := node.name
                service_groups := node.service_groups
                comms_id := node.comms_id }, true)
  else .ok (stored, false)

/-- Two node updates applied in sequence, the second to the outcome of the
first. -/
def applyUpdate2 (uri_parse : String → Option UriParts)
    (stored u1 u2 : RemoteNode) : Except XenonError (RemoteNode × Bool) :=
  match RemoteNode.update uri_parse stored u1 with
  | .error e => .error e
  | .ok (n, _) => RemoteNode.update uri_parse n u2

/-- Projection: the comms_id reached by a successful update sequence. -/
def commsOf (r : Except XenonError (RemoteNode × Bool)) : Option Nat :=
  match r with
  | .ok (n, _) => some n.comms_id
  | .error _ => none

/-- Modelled from the spec: the POST /node/register branch of handle_node is
absent from the src/server.rs snapshot (its handle_node, lines 521-579, only
implements GET /node/config, while src/nodes.rs supplies RemoteNodeCreate
and RemoteNode::new for it and refers to the ErrorRegisteringNode response
that the src/response.rs snapshot also lacks).  Spec section 4.6: parse the
request body as RemoteNodeCreate, build a RemoteNode via RemoteNode::new
with a fresh NodeId and comms_id 0, insert it into remote_nodes, and respond
with the new node id.  The body argument is the serde parse result of the
request body, fresh_id the externally generated UUID, and the node map an
association list in insertion order (IndexMap). -/
def handle_node_register (uri_parse : String → Option UriParts) (fresh_id : String)
    (body : Option RemoteNodeCreate) (nodes : List (String × RemoteNode)) :
    Except XenonError (String × List (String × RemoteNode)) :=
  match body with
  | none => .error (.RespondWith (.ErrorRegisteringNode "Error parsing node registration body"))
  | some node_info =>
      match RemoteNode.new uri_parse fresh_id node_info with
      | .error e => .error e
      | .ok node => .ok (node.id, nodes ++ [(node.id, node)])

/-! ### src/server.rs : create-session dispatch and remote fallback -/

/-- Embedding of the create-session dispatch of handle_session
(src/server.rs lines 197-222): the result of handle_create_session is
examined; on RespondWith NoSessionsAvailable the remote attempt decides
(with NoMatchingBrowser from the remote mapped back to NoSessionsAvailable),
on RespondWith NoMatchingBrowser the remote result is surfaced as is, and
any other outcome short-circuits.  The remote attempt is represented by its
result; the Rust code only evaluates it in the two fallback branches. -/
def createSessionDispatch {α : Type} (localResult remoteResult : Except XenonError α) :
    Except XenonError α :=
  match localResult with
  | .ok x => .ok x
  | .error (.RespondWith .NoSessionsAvailable) =>
      match remoteResult with
      | .ok x => .ok x
      | .error (.RespondWith .NoMatchingBrowser) =>
          .error (.RespondWith .NoSessionsAvailable)
      | .error e => .error e
  | .error (.RespondWith .NoMatchingBrowser) => remoteResult
  | .error e => .error e

/-- The inner loop of the node snapshot in handle_create_session_node
(src/server.rs lines 434-447) for one node: walk its cached service groups;
every group matching the capabilities raises the matched flag, and those
with remaining sessions contribute (display_name, scheme, authority) to the
attempt list. -/
def snapshotGroups (caps : Capabilities) (node : RemoteNode) :
    List RemoteServiceGroup → List (String × String × String) × Bool
  | [] => ([], false)
  | g :: gs =>
      let rest := snapshotGroups caps node gs
      if g.browser.matches_capabilities caps then
        if 0 < g.remaining_sessions then
          ((node.display_name, node.scheme, node.authority) :: rest.1, true)
        else (rest.1, true)
      else rest

/-- The outer loop of the node snapshot of handle_create_session_node:
concatenate the per-node contributions in node order and accumulate the
matched flag. -/
def snapshotNodes (caps : Capabilities) : List RemoteNode →
    List (String × String × String) × Bool
  | [] => ([], false)
  | n :: ns =>
      let here := snapshotGroups caps n n.service_groups
      let rest := snapshotNodes caps ns
      (here.1 ++ rest.1, here.2 || rest.2)

/-- The attempt loop of handle_create_session_node (src/server.rs lines
452-473): try Session::create against each snapshotted node in order and
stop at the first success.  The external creation outcome per node is given
by attempt. -/
def attemptNodes (attempt : String × String × String → Option HttpResponse) :
    List (String × String × String) → Option HttpResponse
  | [] => none
  | d :: rest =>
      match attempt d with
      | some r => some r
      | none => attemptNodes attempt rest

/-- Embedding of handle_create_session_node (src/server.rs lines 421-480):
snapshot the matching nodes, attempt each in order, and when every attempt
fails report NoSessionsAvailable when any cached group matched the
capabilities (whatever its remaining capacity) and NoMatchingBrowser
otherwise. -/
def handle_create_session_node (nodes : List RemoteNode) (caps : Capabilities)
    (attempt : String × String × String → Option HttpResponse) :
    Except XenonError HttpResponse :=
  let snap := snapshotNodes caps nodes
  match attemptNodes attempt snap.1 with
  | some r => .ok r
  | none =>
      if snap.2 then .error (.RespondWith .NoSessionsAvailable)
      else .error (.RespondWith .NoMatchingBrowser)

/-! ### Concrete fixtures used by witnesses and counterexamples -/

/-- A firefox browser entry as produced by config loading with defaults. -/
def firefoxConfig : BrowserConfig :=
  { name := "firefox", version := none, os := none,
    driver_path := some "geckodriver", args := none,
    sessions_per_driver := 1, max_sessions := 5 }

/-- A request for firefox with no version or platform constraint. -/
def capsFirefox : Capabilities :=
  ⟨{ browser_name := "Firefox", browser_version := none, platform_name := none }⟩

/-- A service group holding one service on port 5000 with one session. -/
def groupOneSession : ServiceGroup :=
  { browser := firefoxConfig, services := [(5000, { port := 5000, sessions := ["sess1"] })] }

/-- A port pool where port 5000 is currently Taken. -/
def pmTaken5000 : PortManager :=
  ⟨[(5000, PortStatus.Taken)]⟩

/-- A port pool where port 5000 is Available. -/
def pmAvail5000 : PortManager :=
  ⟨[(5000, PortStatus.Available)]⟩

/-- A remote node fixture with a given comms_id and name. -/
def mkNode (cid : Nat) (nm : String) : RemoteNode :=
  { id := "node-id-0", name := nm, url := "remote-url", comms_id := cid,
    service_groups := [], scheme := "http", authority := "localhost:8888" }

/-- A uri parser fixture that accepts every url with explicit components. -/
def uriAccept : String → Option UriParts :=
  fun _ => some { scheme := some "http", authority := some "host:1234" }

/-- A remote node whose cached groups contain a firefox entry with no free
sessions. -/
def nodeFullFirefox : RemoteNode :=
  { id := "node-id-1", name := "peer", url := "remote-url", comms_id := 0,
    service_groups := [{ browser := firefoxConfig, remaining_sessions := 0 }],
    scheme := "http", authority := "localhost:8888" }

/-! ## Helper lemmas -/

/-- A string has isEmpty false exactly when it is not the empty string. -/
theorem isEmpty_false_iff (s : String) : s.isEmpty = false ↔ s ≠ "" := by
  constructor
  · intro h he
    rw [he] at h
    exact absurd h (by decide)
  · intro h
    cases he : s.isEmpty with
    | false => rfl
    | true => exact absurd ((String.isEmpty_iff s).mp he) h

/-- The name check succeeds exactly on case-insensitively equal names. -/
theorem nameMatches_iff (b : BrowserConfig) (c : Capabilities) :
    nameMatches b c = true ↔ lowerStr b.name = lowerStr c.browser_name := by
  simp [nameMatches]

/-- The version check succeeds exactly when every non-empty requested
version is matched exactly by a present configured version. -/
theorem versionMatches_iff (b : BrowserConfig) (c : Capabilities) :
    versionMatches b c = true ↔
      (∀ rv, c.browser_version = some rv → rv ≠ "" → b.version = some rv) := by
  unfold versionMatches
  cases hbv : c.browser_version with
  | none => simp
  | some rv =>
      by_cases he : rv = ""
      · subst he
        have hemp : ("" : String).isEmpty = true := by decide
        simp [hemp]
      · have hemp : rv.isEmpty = false := (isEmpty_false_iff rv).mpr he
        simp only [hemp, Bool.false_eq_true, if_false]
        cases hv : b.version with
        | none =>
            simp only [Option.some.injEq]
            constructor
            · intro h
              cases h
            · intro h
              exact absurd (h rv rfl he) (by simp)
        | some v =>
            simp only [beq_iff_eq, Option.some.injEq]
            constructor
            · intro hveq rv2 hr he2
              cases hr
              exact hveq
            · intro h
              exact h rv rfl he

/-- The platform check succeeds exactly when every requested platform other
than any is matched case-insensitively by a present configured os. -/
theorem platformMatches_iff (b : BrowserConfig) (c : Capabilities) :
    platformMatches b c = true ↔
      (∀ ro, c.platform_name = some ro → lowerStr ro ≠ "any" →
         ∃ os, b.os = some os ∧ lowerStr os = lowerStr ro) := by
  unfold platformMatches
  cases hbp : c.platform_name with
  | none => simp
  | some ro =>
      by_cases hany : lowerStr ro = "any"
      · have hb : (lowerStr ro == "any") = true := by simp [hany]
        simp [hb, hany]
      · have hb : (lowerStr ro == "any") = false := by simp [hany]
        simp only [hb, Bool.false_eq_true, if_false]
        cases hos : b.os with
        | none =>
            simp only [Option.some.injEq]
            constructor
            · intro h
              cases h
            · intro h
              obtain ⟨os2, hos2, _⟩ := h ro rfl hany
              cases hos2
        | some os =>
            simp only [beq_iff_eq, Option.some.injEq]
            constructor
            · intro hl ro2 hro2 _
              cases hro2
              exact ⟨os, rfl, hl⟩
            · intro h
              obtain ⟨os2, hos2, hl2⟩ := h ro rfl hany
              cases hos2
              exact hl2

/-! ## Claim C5 -/

/-- C5: matches_capabilities holds iff (1) the configured name equals the
requested browserName case-insensitively, (2) any requested non-empty
browserVersion is matched by a present, exactly equal configured version,
and (3) any requested platformName other than any is matched by a present,
case-insensitively equal configured os; consequently absent caller fields
constrain nothing, a configured browser without a version only matches
requests whose version constraint is absent or empty, and one without an os
only matches requests whose platform constraint is absent or any. -/
theorem c5_matches_capabilities (b : BrowserConfig) (c : Capabilities) :
    (b.matches_capabilities c = true ↔
      (lowerStr b.name = lowerStr c.browser_name
       ∧ (∀ rv, c.browser_version = some rv → rv ≠ "" → b.version = some rv)
       ∧ (∀ ro, c.platform_name = some ro → lowerStr ro ≠ "any" →
            ∃ os, b.os = some os ∧ lowerStr os = lowerStr ro)))
    ∧ (b.version = none → b.matches_capabilities c = true →
        c.browser_version = none ∨ c.browser_version = some "")
    ∧ (b.os = none → b.matches_capabilities c = true →
        c.platform_name = none ∨ ∃ ro, c.platform_name = some ro ∧ lowerStr ro = "any") := by
  have hmain : b.matches_capabilities c = true ↔
      (lowerStr b.name = lowerStr c.browser_name
       ∧ (∀ rv, c.browser_version = some rv → rv ≠ "" → b.version = some rv)
       ∧ (∀ ro, c.platform_name = some ro → lowerStr ro ≠ "any" →
            ∃ os, b.os = some os ∧ lowerStr os = lowerStr ro)) := by
    unfold BrowserConfig.matches_capabilities
    rw [Bool.and_eq_true, Bool.and_eq_true, nameMatches_iff, versionMatches_iff,
        platformMatches_iff]
    tauto
  refine ⟨hmain, ?_, ?_⟩
  · intro hnone hm
    obtain ⟨_, hver, _⟩ := hmain.mp hm
    cases hbv : c.browser_version with
    | none => exact Or.inl rfl
    | some rv =>
        by_cases he : rv = ""
        · subst he
          exact Or.inr rfl
        · have := hver rv hbv he
          rw [hnone] at this
          cases this
  · intro hnone hm
    obtain ⟨_, _, hplat⟩ := hmain.mp hm
    cases hbp : c.platform_name with
    | none => exact Or.inl rfl
    | some ro =>
        by_cases hany : lowerStr ro = "any"
        · exact Or.inr ⟨ro, rfl, hany⟩
        · obtain ⟨os, hos, _⟩ := hplat ro hbp hany
          rw [hnone] at hos
          cases hos

/-- C5 witness: the firefox fixture matches a Firefox request with no
version or platform constraint, and the theorem yields the concrete
case-insensitive name equation. -/
theorem c5_matches_capabilities_witness :
    lowerStr firefoxConfig.name = lowerStr capsFirefox.browser_name :=
  (((c5_matches_capabilities firefoxConfig capsFirefox).1).mp (by decide)).1

/-! ## Claim C7 -/

/-- Ports contributed by a single entry are exactly those the admission
predicate allows. -/
theorem mem_portEntryPorts_iff (entry : String) (p : Nat) :
    p ∈ portEntryPorts entry ↔ admitsPort entry p := by
  unfold portEntryPorts admitsPort
  rcases hsp : splitn2 '-' entry with _ | ⟨q, _ | ⟨b, _ | ⟨q3, tail⟩⟩⟩
  · simp only [hsp, List.not_mem_nil, false_iff]
    rintro (⟨q2, hq2, _⟩ | ⟨a2, b2, s2, e2, hab, _⟩)
    · simp at hq2
    · simp at hab
  · cases hq : parseU16 q with
    | none =>
        simp only [hsp, hq, List.not_mem_nil, false_iff]
        rintro (⟨q2, hq2, hp2⟩ | ⟨a2, b2, s2, e2, hab, _⟩)
        · injection hq2 with h1 _
          subst h1
          rw [hq] at hp2
          cases hp2
        · simp at hab
    | some x =>
        simp only [hsp, hq, List.mem_singleton]
        constructor
        · intro h
          subst h
          exact Or.inl ⟨q, rfl, hq⟩
        · rintro (⟨q2, hq2, hp2⟩ | ⟨a2, b2, s2, e2, hab, _⟩)
          · injection hq2 with h1 _
            subst h1
            rw [hq] at hp2
            exact (Option.some_inj.mp hp2).symm
          · simp at hab
  · cases ha : parseU16 q with
    | none =>
        simp only [hsp, ha, List.not_mem_nil, false_iff]
        rintro (⟨q2, hq2, _⟩ | ⟨a2, b2, s2, e2, hab, ha2, _⟩)
        · simp at hq2
        · injection hab with h1 h2
          subst h1
          rw [ha] at ha2
          cases ha2
    | some s =>
        cases hb : parseU16 b with
        | none =>
            simp only [hsp, ha, hb, List.not_mem_nil, false_iff]
            rintro (⟨q2, hq2, _⟩ | ⟨a2, b2, s2, e2, hab, ha2, hb2, _⟩)
            · simp at hq2
            · injection hab with h1 h2
              injection h2 with h3 _
              subst h1
              subst h3
              rw [hb] at hb2
              cases hb2
        | some e =>
            simp only [hsp, ha, hb]
            constructor
            · intro hmem
              split_ifs at hmem with h1 h2
              · exact absurd hmem (List.not_mem_nil p)
              · exact absurd hmem (List.not_mem_nil p)
              · simp only [rangePorts, List.mem_range'_1] at hmem
                refine Or.inr ⟨q, b, s, e, rfl, ha, hb, ?_, ?_, ?_, ?_⟩ <;> omega
            · rintro (⟨q2, hq2, _⟩ | ⟨a2, b2, s2, e2, hab, ha2, hb2, hs2, he2, hsp2, hpe2⟩)
              · simp at hq2
              · injection hab with h1 h2
                injection h2 with h3 _
                subst h1
                subst h3
                rw [ha] at ha2
                rw [hb] at hb2
                obtain rfl : s = s2 := Option.some_inj.mp ha2
                obtain rfl : e = e2 := Option.some_inj.mp hb2
                rw [if_neg (by omega), if_neg (by omega)]
                simp only [rangePorts, List.mem_range'_1]
                omega
  · simp only [hsp, List.not_mem_nil, false_iff]
    rintro (⟨q2, hq2, _⟩ | ⟨a2, b2, s2, e2, hab, _⟩)
    · simp at hq2
    · simp at hab

/-- C7 (amended): parse_port_list never fails and returns exactly the ports
admitted by the entries, where a dash-separated range contributes its full
inclusive span only when both endpoints parse as u16, both exceed 1024 and
the range is not reversed, every malformed entry contributes nothing, and a
single-port entry contributes its parsed u16 value with no lower-bound
check (the source only applies the 1024 bound to range endpoints). -/
theorem c7_parse_port_list (p : Nat) (entries : List String) :
    p ∈ parse_port_list entries ↔ ∃ entry ∈ entries, admitsPort entry p := by
  induction entries with
  | nil => simp [parse_port_list]
  | cons e rest ih =>
      simp only [parse_port_list, List.mem_append, ih, mem_portEntryPorts_iff,
        List.mem_cons, exists_eq_or_imp]

/-- C7 witness: a concrete port obtained through the amended
characterization — the single entry 5001 admits port 5001. -/
theorem c7_parse_port_list_witness : 5001 ∈ parse_port_list ["5001"] :=
  (c7_parse_port_list 5001 ["5001"]).mpr
    ⟨"5001", by decide, Or.inl ⟨"5001", by decide, by decide⟩⟩

/-- C7 is refuted as frozen: the single-port entry 80 denotes a port at
most 1024 yet is not skipped; parse_port_list returns it. -/
theorem c7_counterexample :
    parse_port_list ["80"] = [80] ∧ 80 ∈ parse_port_list ["80"] ∧ 80 ≤ 1024 :=
  ⟨by decide, by decide, by decide⟩

/-! ## Claim C6 -/

/-- Helper: when every attempt fails, the probe loop started at any count
that can still reach the bound returns the timeout error after 31 issued
requests in total. -/
theorem statusProbeGo_allfail (ok : Nat → Bool) (hok : ∀ i, ok i = false) :
    ∀ n count, count + n = 30 → statusProbeGo ok count = .error 31 := by
  intro n
  induction n with
  | zero =>
      intro count h
      have hc : count = 30 := by omega
      subst hc
      rw [statusProbeGo]
      simp [hok]
  | succ m ih =>
      intro count h
      rw [statusProbeGo]
      simp [hok]
      have h1 : ¬ 30 < count + 1 := by omega
      simp [h1]
      exact ih (count + 1) (by omega)

/-- Helper: a timeout error always reports exactly 31 issued requests. -/
theorem statusProbeGo_error_eq (ok : Nat → Bool) :
    ∀ n count m, count + n = 30 → statusProbeGo ok count = .error m → m = 31 := by
  intro n
  induction n with
  | zero =>
      intro count m h he
      rw [statusProbeGo] at he
      by_cases hc : ok count = true
      · simp [hc] at he
      · simp [hc] at he
        have h1 : (30 : Nat) < count + 1 := by omega
        simp [h1] at he
        omega
  | succ k ih =>
      intro count m h he
      rw [statusProbeGo] at he
      by_cases hc : ok count = true
      · simp [hc] at he
      · have h1 : ¬ (30 : Nat) < count + 1 := by omega
        simp [hc, h1] at he
        exact ih (count + 1) m (by omega) he

/-- Helper: a successful probe issues at most 31 requests. -/
theorem statusProbeGo_ok_le (ok : Nat → Bool) :
    ∀ n count m, count + n = 30 → statusProbeGo ok count = .ok m → m ≤ 31 := by
  intro n
  induction n with
  | zero =>
      intro count m h he
      rw [statusProbeGo] at he
      by_cases hc : ok count = true
      · simp [hc] at he
        omega
      · have h1 : (30 : Nat) < count + 1 := by omega
        simp [hc, h1] at he
  | succ k ih =>
      intro count m h he
      rw [statusProbeGo] at he
      by_cases hc : ok count = true
      · simp [hc] at he
        omega
      · have h1 : ¬ (30 : Nat) < count + 1 := by omega
        simp [hc, h1] at he
        exact ih (count + 1) m (by omega) he

/-- C6 (amended): the readiness probe of Session::create breaks on the
first 2xx /status response, issues at most 31 requests, and when every
attempt fails it times out after exactly 31 failed attempts (the source
increments the counter before comparing it with 30, so the bound is 31
attempts, about 31 seconds, not 30). -/
theorem c6_status_probe (ok : Nat → Bool) :
    ((∀ i, ok i = false) → statusProbe ok = .error 31)
    ∧ (∀ m, statusProbe ok = .error m → m = 31)
    ∧ (∀ m, statusProbe ok = .ok m → m ≤ 31) :=
  ⟨fun h => statusProbeGo_allfail ok h 30 0 rfl,
   fun m hm => statusProbeGo_error_eq ok 30 0 m rfl hm,
   fun m hm => statusProbeGo_ok_le ok 30 0 m rfl hm⟩

/-- C6 witness: the probe with every attempt failing ends in the timeout
error after 31 requests. -/
theorem c6_status_probe_witness : statusProbe (fun _ => false) = .error 31 :=
  (c6_status_probe (fun _ => false)).1 (fun _ => rfl)

/-- C6 is refuted as frozen: with every /status attempt failing, the loop
issues 31 requests before returning the timeout error, not 30. -/
theorem c6_counterexample :
    statusProbe (fun _ => false) = .error 31 ∧ (31 : Nat) ≠ 30 :=
  ⟨statusProbeGo_allfail (fun _ => false) (fun _ => rfl) 30 0 rfl, by decide⟩

/-! ## Claim C1 -/

/-- C1: whenever the backend handshake of Session::create returns a 2xx
status with a body that parses as a ConnectionResp, the response assembled
for the client has both the top-level sessionId and value.sessionId equal
to the Xenon-minted session id, carries Content-Type application/json,
preserves the upstream status code, and leaves the capabilities payload of
the body untouched. -/
theorem c1_id_translation (status : Nat) (resp : ConnectionResp) (xsession_id : String)
    (h200 : 200 ≤ status) (h300 : status < 300) :
    ∃ backend_id out,
      Session.processHandshake status (some resp) xsession_id = .ok (backend_id, out)
      ∧ out.body.session_id = xsession_id
      ∧ out.body.value.session_id = xsession_id
      ∧ out.content_type = some "application/json"
      ∧ out.status = status
      ∧ out.body.value.capabilities = resp.value.capabilities := by
  have hs : statusIsSuccess status = true := by
    simp only [statusIsSuccess, decide_eq_true_eq]
    exact ⟨h200, h300⟩
  unfold Session.processHandshake
  rw [hs]
  exact ⟨_, _, rfl, rfl, rfl, rfl, rfl, rfl⟩

/-- C1 witness at a concrete 200 handshake response. -/
theorem c1_id_translation_witness :
    ∃ backend_id out,
      Session.processHandshake 200
          (some { session_id := "abc", value := { session_id := "", capabilities := "caps" } })
          "xenon-uuid" = .ok (backend_id, out)
      ∧ out.body.session_id = "xenon-uuid"
      ∧ out.body.value.session_id = "xenon-uuid"
      ∧ out.content_type = some "application/json"
      ∧ out.status = 200
      ∧ out.body.value.capabilities = "caps" :=
  c1_id_translation 200
    { session_id := "abc", value := { session_id := "", capabilities := "caps" } }
    "xenon-uuid" (by decide) (by decide)

/-! ## Claim C2 -/

/-- C2 is refuted as frozen: on a 2xx response whose top-level sessionId
and value.sessionId are both non-empty and differ, Session::create stores
the top-level id, not value.sessionId as the claim states. -/
theorem c2_counterexample :
    backendIdOf (Session.processHandshake 200
        (some { session_id := "top-id", value := { session_id := "value-id", capabilities := "caps" } })
        "xenon-uuid") = some "top-id"
    ∧ "top-id" ≠ "value-id" ∧ "top-id" ≠ "" ∧ "value-id" ≠ "" :=
  ⟨by decide, by decide, by decide, by decide⟩

/-- C2 (amended): on a 2xx parseable handshake response the stored
backend_session_id is the top-level sessionId when that is non-empty, and
value.sessionId otherwise (the opposite precedence to the frozen claim). -/
theorem c2_backend_id_selection (status : Nat) (resp : ConnectionResp)
    (xsession_id : String) (h200 : 200 ≤ status) (h300 : status < 300) :
    (resp.session_id ≠ "" →
      backendIdOf (Session.processHandshake status (some resp) xsession_id)
        = some resp.session_id)
    ∧ (resp.session_id = "" →
      backendIdOf (Session.processHandshake status (some resp) xsession_id)
        = some resp.value.session_id) := by
  have hs : statusIsSuccess status = true := by
    simp only [statusIsSuccess, decide_eq_true_eq]
    exact ⟨h200, h300⟩
  unfold Session.processHandshake backendIdOf
  rw [hs]
  constructor
  · intro hne
    have hemp : resp.session_id.isEmpty = false := (isEmpty_false_iff resp.session_id).mpr hne
    simp [hemp]
  · intro he
    have hemp : resp.session_id.isEmpty = true := by
      rw [he]
      decide
    simp [hemp]

/-- C2 witness: concrete instances of both branches of the amended claim. -/
theorem c2_backend_id_selection_witness :
    backendIdOf (Session.processHandshake 201
        (some { session_id := "top-id", value := { session_id := "value-id", capabilities := "c" } })
        "x") = some "top-id" :=
  (c2_backend_id_selection 201
      { session_id := "top-id", value := { session_id := "value-id", capabilities := "c" } }
      "x" (by decide) (by decide)).1 (by decide)

/-! ## Claim C3 -/

/-- C3: the code has the bug the claim rules out.  When ServiceGroup has no
usable service, locks a fresh port from the PortManager and the spawn of
the new WebDriverService fails, the error propagates to the caller but the
freshly locked port is left Taken: it is never unlocked, so the invariant
that a Taken port is owned by some service is broken by the failing call.
Evaluated at the concrete failing input (empty group, pool holding the
single Available port 5000, spawn failing with message boom). -/
theorem c3_spawn_failure_leaks_port :
    (ServiceGroup.get_or_start_service
        { browser := firefoxConfig, services := [] } pmAvail5000
        (fun _ => some "boom")).1 = .error (.IOError "boom")
    ∧ assocGet (ServiceGroup.get_or_start_service
        { browser := firefoxConfig, services := [] } pmAvail5000
        (fun _ => some "boom")).2.ports 5000 = some PortStatus.Taken
    ∧ PortStatus.Taken ≠ PortStatus.Available :=
  ⟨rfl, rfl, by decide⟩

/-! ## Claim C4 -/

/-- Helper: the matched flag of the per-node snapshot is the any-match of
the cached groups, independently of remaining capacity. -/
theorem snapshotGroups_flag (caps : Capabilities) (node : RemoteNode) :
    ∀ gs : List RemoteServiceGroup,
      (snapshotGroups caps node gs).2
        = gs.any (fun g => g.browser.matches_capabilities caps) := by
  intro gs
  induction gs with
  | nil => rfl
  | cons g rest ih =>
      unfold snapshotGroups
      by_cases hm : g.browser.matches_capabilities caps = true
      · by_cases hr : 0 < g.remaining_sessions
        · simp [hm, hr]
        · simp [hm, hr]
      · simp [hm, ih]

/-- Helper: the matched flag of the full snapshot is the any-match over all
nodes and their cached groups. -/
theorem snapshotNodes_flag (caps : Capabilities) :
    ∀ nodes : List RemoteNode,
      (snapshotNodes caps nodes).2
        = nodes.any (fun n =>
            n.service_groups.any (fun g => g.browser.matches_capabilities caps)) := by
  intro nodes
  induction nodes with
  | nil => rfl
  | cons n rest ih =>
      unfold snapshotNodes
      simp [snapshotGroups_flag, ih]

/-- Helper: when every creation attempt fails, the attempt loop yields
nothing. -/
theorem attemptNodes_none (attempt : String × String × String → Option HttpResponse)
    (h : ∀ d, attempt d = none) :
    ∀ l, attemptNodes attempt l = none := by
  intro l
  induction l with
  | nil => rfl
  | cons d rest ih =>
      unfold attemptNodes
      rw [h d, ih]

/-- C4: the create-session dispatch tries the remote handler when the local
handler fails with NoSessionsAvailable and maps a remote NoMatchingBrowser
back to NoSessionsAvailable while surfacing any other remote outcome; when
the local handler fails with NoMatchingBrowser the remote result is
surfaced as is; and the remote handler itself, when every creation attempt
fails, reports NoSessionsAvailable exactly when some cached remote group
matched the capabilities (whatever its remaining capacity) and
NoMatchingBrowser otherwise. -/
theorem c4_create_session_fallback :
    (∀ x : HttpResponse,
      createSessionDispatch (.error (.RespondWith .NoSessionsAvailable)) (.ok x) = .ok x)
    ∧ createSessionDispatch (α := HttpResponse)
        (.error (.RespondWith .NoSessionsAvailable))
        (.error (.RespondWith .NoMatchingBrowser))
        = .error (.RespondWith .NoSessionsAvailable)
    ∧ (∀ e : XenonError, e ≠ .RespondWith .NoMatchingBrowser →
        createSessionDispatch (α := HttpResponse)
          (.error (.RespondWith .NoSessionsAvailable)) (.error e) = .error e)
    ∧ (∀ r : Except XenonError HttpResponse,
        createSessionDispatch (.error (.RespondWith .NoMatchingBrowser)) r = r)
    ∧ (∀ (nodes : List RemoteNode) (caps : Capabilities)
         (attempt : String × String × String → Option HttpResponse),
        (∀ d, attempt d = none) →
        ((∃ n ∈ nodes, ∃ g ∈ n.service_groups,
            g.browser.matches_capabilities caps = true) →
          handle_create_session_node nodes caps attempt
            = .error (.RespondWith .NoSessionsAvailable))
        ∧ (¬ (∃ n ∈ nodes, ∃ g ∈ n.service_groups,
            g.browser.matches_capabilities caps = true) →
          handle_create_session_node nodes caps attempt
            = .error (.RespondWith .NoMatchingBrowser))) := by
  refine ⟨fun x => rfl, rfl, ?_, ?_, ?_⟩
  · intro e he
    cases e with
    | InvalidPort => rfl
    | ServerError m => rfl
    | RequestError m => rfl
    | ResponsePassThrough s => rfl
    | IOError m => rfl
    | NoSessionsAvailable => rfl
    | RespondWith r =>
        cases r with
        | EndpointNotFound p => rfl
        | MethodNotFound p => rfl
        | SessionNotFound s => rfl
        | ErrorCreatingSession m => rfl
        | NoMatchingBrowser => exact absurd rfl he
        | NoSessionsAvailable => rfl
        | InternalServerError m => rfl
        | ErrorCreatingNode m => rfl
        | ErrorRegisteringNode m => rfl
        | ErrorUpdatingNode m => rfl
  · intro r
    cases r with
    | ok x => rfl
    | error e => rfl
  · intro nodes caps attempt hfail
    have hnone := attemptNodes_none attempt hfail (snapshotNodes caps nodes).1
    have hflag := snapshotNodes_flag caps nodes
    constructor
    · intro hex
      have : (snapshotNodes caps nodes).2 = true := by
        rw [hflag]
        simp only [List.any_eq_true]
        obtain ⟨n, hn, g, hg, hm⟩ := hex
        exact ⟨n, hn, g, hg, hm⟩
      simp only [handle_create_session_node]
      rw [hnone, this]
      rfl
    · intro hex
      have : (snapshotNodes caps nodes).2 = false := by
        rw [hflag]
        rw [Bool.eq_false_iff]
        intro hany
        apply hex
        simp only [List.any_eq_true] at hany
        obtain ⟨n, hn, g, hg, hm⟩ := hany
        exact ⟨n, hn, g, hg, hm⟩
      simp only [handle_create_session_node]
      rw [hnone, this]
      rfl

/-- C4 witness: concrete instances — a bare (non-RespondWith)
NoSessionsAvailable from the remote side is surfaced unchanged, and a node
whose only matching cached group has no remaining sessions still yields
NoSessionsAvailable when every attempt fails. -/
theorem c4_create_session_fallback_witness :
    createSessionDispatch (α := HttpResponse)
      (.error (.RespondWith .NoSessionsAvailable)) (.error .NoSessionsAvailable)
      = .error .NoSessionsAvailable
    ∧ handle_create_session_node [nodeFullFirefox] capsFirefox (fun _ => none)
      = .error (.RespondWith .NoSessionsAvailable) :=
  ⟨c4_create_session_fallback.2.2.1 .NoSessionsAvailable (by decide),
   ((c4_create_session_fallback.2.2.2.2 [nodeFullFirefox] capsFirefox (fun _ => none)
      (fun _ => rfl)).1
     ⟨nodeFullFirefox, by decide, { browser := firefoxConfig, remaining_sessions := 0 },
      by decide, by decide⟩)⟩

/-! ## Claim C8 -/

/-- C8 (spec-modelled register endpoint): registering a node whose url the
uri parser accepts inserts a new RemoteNode at the end of the node map
under the fresh NodeId, with comms_id 0 and scheme and authority taken
from the url with defaults http and localhost:8888 for missing components,
and the response carries the new node id rather than an error. -/
theorem c8_node_register (uri_parse : String → Option UriParts) (fresh_id : String)
    (node_info : RemoteNodeCreate) (nodes : List (String × RemoteNode)) (parts : UriParts)
    (hparse : uri_parse node_info.url = some parts) :
    ∃ node,
      handle_node_register uri_parse fresh_id (some node_info) nodes
        = .ok (fresh_id, nodes ++ [(fresh_id, node)])
      ∧ node.id = fresh_id
      ∧ node.comms_id = 0
      ∧ node.scheme = parts.scheme.getD "http"
      ∧ node.authority = parts.authority.getD "localhost:8888"
      ∧ node.service_groups = node_info.service_groups
      ∧ node.name = node_info.name
      ∧ node.url = node_info.url := by
  unfold handle_node_register RemoteNode.new parse_url
  simp only [hparse]
  exact ⟨_, rfl, rfl, rfl, rfl, rfl, rfl, rfl, rfl⟩

/-- C8 witness at a concrete registration with explicit url components. -/
theorem c8_node_register_witness :
    ∃ node,
      handle_node_register uriAccept "fresh-node-id"
          (some { name := "peer", url := "remote-url", service_groups := [] }) []
        = .ok ("fresh-node-id", [("fresh-node-id", node)])
      ∧ node.id = "fresh-node-id"
      ∧ node.comms_id = 0
      ∧ node.scheme = "http"
      ∧ node.authority = "host:1234"
      ∧ node.service_groups = ([] : List RemoteServiceGroup)
      ∧ node.name = "peer"
      ∧ node.url = "remote-url" :=
  c8_node_register uriAccept "fresh-node-id"
    { name := "peer", url := "remote-url", service_groups := [] } []
    { scheme := some "http", authority := some "host:1234" } rfl

/-! ## Claim C9 -/

/-- Helper: an update whose comms_id exceeds the stored one and whose url
parses is applied, overwriting exactly name, service_groups, comms_id and
the url-derived scheme and authority. -/
theorem update_accept (uri_parse : String → Option UriParts)
    (stored incoming : RemoteNode) (s a : String)
    (hp : parse_url uri_parse incoming.url = some (s, a))
    (hlt : stored.comms_id < incoming.comms_id) :
    RemoteNode.update uri_parse stored incoming =
      .ok ({ stored with
              scheme := s
              authority := a
              name := incoming.name
              service_groups := incoming.service_groups
              comms_id := incoming.comms_id }, true) := by
  unfold RemoteNode.update
  rw [if_pos hlt, hp]

/-- Helper: an update whose comms_id does not exceed the stored one leaves
the node unchanged and reports false. -/
theorem update_reject (uri_parse : String → Option UriParts)
    (stored incoming : RemoteNode)
    (hge : ¬ stored.comms_id < incoming.comms_id) :
    RemoteNode.update uri_parse stored incoming = .ok (stored, false) := by
  unfold RemoteNode.update
  rw [if_neg hge]

/-- C9 is refuted as frozen: on a stored node with comms_id 5, the two
updates with comms_ids 1 and 2 (both with parseable urls) are both
rejected in either order and the node keeps comms_id 5, not the larger
comms_id 2 of the pair as the claim states. -/
theorem c9_counterexample :
    commsOf (applyUpdate2 uriAccept (mkNode 5 "stored") (mkNode 1 "a") (mkNode 2 "b"))
      = some 5
    ∧ commsOf (applyUpdate2 uriAccept (mkNode 5 "stored") (mkNode 2 "b") (mkNode 1 "a"))
      = some 5
    ∧ (5 : Nat) ≠ 2 :=
  ⟨rfl, rfl, by decide⟩

/-- C9 (amended): an update with a parseable url is accepted iff its
comms_id exceeds the stored one (overwriting name, url-derived scheme and
authority, service_groups and comms_id on accept, leaving the node
unchanged on reject); and whenever the stored comms_id is below b, applying
two updates with comms_ids a below b (both urls parseable) in either order
yields the same final node, carrying comms_id b and the b-update state. -/
theorem c9_node_update_monotonic (uri_parse : String → Option UriParts)
    (stored ua ub : RemoteNode) (pa pb : String × String)
    (hpa : parse_url uri_parse ua.url = some pa)
    (hpb : parse_url uri_parse ub.url = some pb)
    (hab : ua.comms_id < ub.comms_id)
    (hsb : stored.comms_id < ub.comms_id) :
    (∀ incoming ps auth, parse_url uri_parse incoming.url = some (ps, auth) →
      ((stored.comms_id < incoming.comms_id →
         RemoteNode.update uri_parse stored incoming =
           .ok ({ stored with
                   scheme := ps
                   authority := auth
                   name := incoming.name
                   service_groups := incoming.service_groups
                   comms_id := incoming.comms_id }, true))
       ∧ (¬ stored.comms_id < incoming.comms_id →
         RemoteNode.update uri_parse stored incoming = .ok (stored, false))))
    ∧ (∃ nfinal,
        applyUpdate2 uri_parse stored ua ub = .ok (nfinal, true)
        ∧ applyUpdate2 uri_parse stored ub ua = .ok (nfinal, false)
        ∧ nfinal.comms_id = ub.comms_id
        ∧ nfinal.service_groups = ub.service_groups
        ∧ nfinal.name = ub.name
        ∧ nfinal.scheme = pb.1
        ∧ nfinal.authority = pb.2
        ∧ nfinal.id = stored.id) := by
  obtain ⟨pa1, pa2⟩ := pa
  obtain ⟨pb1, pb2⟩ := pb
  constructor
  · intro incoming ps auth hp
    exact ⟨fun hlt => update_accept uri_parse stored incoming ps auth hp hlt,
           fun hge => update_reject uri_parse stored incoming hge⟩
  · refine ⟨{ stored with
               scheme := pb1
               authority := pb2
               name := ub.name
               service_groups := ub.service_groups
               comms_id := ub.comms_id },
            ?_, ?_, rfl, rfl, rfl, rfl, rfl, rfl⟩
    · by_cases h1 : stored.comms_id < ua.comms_id
      · have hfirst := update_accept uri_parse stored ua pa1 pa2 hpa h1
        have hsec := update_accept uri_parse
          { stored with
             scheme := pa1
             authority := pa2
             name := ua.name
             service_groups := ua.service_groups
             comms_id := ua.comms_id }
          ub pb1 pb2 hpb hab
        simp only [applyUpdate2, hfirst, hsec]
      · have hfirst := update_reject uri_parse stored ua h1
        have hsec := update_accept uri_parse stored ub pb1 pb2 hpb hsb
        simp only [applyUpdate2, hfirst, hsec]
    · have hfirst := update_accept uri_parse stored ub pb1 pb2 hpb hsb
      have hsec := update_reject uri_parse
        { stored with
           scheme := pb1
           authority := pb2
           name := ub.name
           service_groups := ub.service_groups
           comms_id := ub.comms_id }
        ua (fun h => Nat.lt_asymm hab h)
      simp only [applyUpdate2, hfirst, hsec]

/-- C9 witness: a fresh node (comms_id 0) receiving updates 1 and 2 in
either order ends at the 2-update state. -/
theorem c9_node_update_monotonic_witness :
    ∃ nfinal,
      applyUpdate2 uriAccept (mkNode 0 "stored") (mkNode 1 "a") (mkNode 2 "b")
        = .ok (nfinal, true)
      ∧ applyUpdate2 uriAccept (mkNode 0 "stored") (mkNode 2 "b") (mkNode 1 "a")
        = .ok (nfinal, false)
      ∧ nfinal.comms_id = 2
      ∧ nfinal.service_groups = (mkNode 2 "b").service_groups
      ∧ nfinal.name = "b"
      ∧ nfinal.scheme = "http"
      ∧ nfinal.authority = "host:1234"
      ∧ nfinal.id = "node-id-0" :=
  (c9_node_update_monotonic uriAccept (mkNode 0 "stored") (mkNode 1 "a") (mkNode 2 "b")
    ("http", "host:1234") ("http", "host:1234") rfl rfl (by decide) (by decide)).2

/-! ## Claim C10 -/

/-- Helper: taking a key out of an association list right after setting it
on an existing key returns the just-set value. -/
theorem assocTake_assocSet {α : Type} (key : Nat) (v : α) :
    ∀ l : List (Nat × α), (∃ w, assocGet l key = some w) →
      (assocTake (assocSet l key v) key).1 = some v := by
  intro l
  induction l with
  | nil =>
      rintro ⟨w, hw⟩
      cases hw
  | cons kv rest ih =>
      rintro ⟨w, hw⟩
      obtain ⟨k1, v1⟩ := kv
      by_cases hk : k1 = key
      · subst hk
        simp [assocSet, assocTake]
      · simp only [assocSet, if_neg hk, assocTake]
        apply ih
        simp only [assocGet, if_neg hk] at hw
        exact ⟨w, hw⟩

/-- C10: every service that ServiceGroup::delete_session hands to
WebDriverService::terminate has an empty session set, so the assertion at
the top of terminate holds on every reachable call and terminate cannot
panic (delete_session is the only caller of terminate in the source). -/
theorem c10_terminate_safety (g : ServiceGroup) (port : ServicePort)
    (xsession_id : String) (pm : PortManager) :
    ∀ s ∈ (ServiceGroup.delete_session g port xsession_id pm).2.2,
      s.terminateAssert := by
  intro s hs
  cases hget : assocGet g.services port with
  | none =>
      simp only [ServiceGroup.delete_session, hget] at hs
      simp at hs
  | some service =>
      simp only [ServiceGroup.delete_session, hget] at hs
      by_cases hemp : (service.delete_session xsession_id).sessions.isEmpty = true
      · rw [if_pos hemp] at hs
        rcases htk : assocTake (assocSet g.services port (service.delete_session xsession_id))
            port with ⟨o, l2⟩
        rw [htk] at hs
        have h1 : o = some (service.delete_session xsession_id) := by
          have h2 := assocTake_assocSet port (service.delete_session xsession_id)
            g.services ⟨service, hget⟩
          rw [htk] at h2
          exact h2
        subst h1
        simp only [List.mem_singleton] at hs
        subst hs
        unfold WebDriverService.terminateAssert
        exact List.isEmpty_iff.mp hemp
      · rw [if_neg hemp] at hs
        simp at hs

/-- C10 witness: deleting the last session of the service on port 5000
terminates exactly that service, and its session set is empty. -/
theorem c10_terminate_safety_witness :
    (ServiceGroup.delete_session groupOneSession 5000 "sess1" pmTaken5000).2.2
      = [{ port := 5000, sessions := [] }]
    ∧ WebDriverService.terminateAssert { port := 5000, sessions := [] } :=
  ⟨rfl, c10_terminate_safety groupOneSession 5000 "sess1" pmTaken5000
      { port := 5000, sessions := [] } (by decide)⟩

end Xenon
